import Mathlib

/-!
Shallow embedding of the Platform-IO-LIBS latch/relay controller core.

The embedding follows the C++ sources:
* `LatchController.cpp` v3.0.0 (the "v3" implementation) and the older v2
  implementation (`beginV2`) — controller state machine over a 32-bit
  logical bitmask with an ACTIVE_HIGH / ACTIVE_LOW polarity layer;
* `ShiftRegisterDriver.cpp` — serial shift protocol modelled as a trace of
  `digitalWrite` events on the data/clock/latch lines;
* `DirectLatchDriver.cpp` — parallel latch driver, modelled for its `init`
  result;
* `ESP32_RelayController.cpp` — the fixed-8-channel relay controller.

Machine integers are modelled as `Nat` with explicit reduction modulo
`2 ^ 32` (respectively `2 ^ 8`) where the C computation can overflow.
Driver interaction is made observable: every operation returns the list of
`updateHardware` calls (data word and channel count) it performs.
-/

/-- `2^32`, the modulus of the C `uint32_t` arithmetic. -/
def UINT32_MOD : Nat := 2 ^ 32

/-- `2^8`, the modulus of the C `uint8_t` arithmetic. -/
def UINT8_MOD : Nat := 2 ^ 8

/-- `LatchTriggerMode` from `LatchController.h`. -/
inductive LatchTriggerMode where
  | ACTIVE_HIGH
  | ACTIVE_LOW
deriving DecidableEq, Repr

/-- One call to `LatchDriver::updateHardware(data, channelCount)`. -/
structure DriverCall where
  data : Nat
  channelCount : Nat
deriving DecidableEq, Repr

/-- The fields of class `LatchController` (`LatchController.h`), together
with the two facts about the attached driver that the controller branches
on: whether a driver is attached (`driver != nullptr`) and what that
driver's `init()` returns. -/
structure LatchController where
  hasDriver : Bool
  driverInitOk : Bool
  channelCount : Nat
  currentState : Nat
  triggerMode : LatchTriggerMode
  initialized : Bool
  hasLock : Bool
deriving DecidableEq, Repr

/-- The v3 constructor `LatchController(LatchDriver*, uint8_t channels)`:
clamps the channel count to at most 32 (`min(channels, (uint8_t)32)`),
zeroes the state, defaults to `ACTIVE_HIGH`, not initialized, no mutex. -/
def LatchController.construct (hasDriver driverInitOk : Bool)
    (channels : Nat) : LatchController :=
  { hasDriver := hasDriver
    driverInitOk := driverInitOk
    channelCount := min channels 32
    currentState := 0
    triggerMode := .ACTIVE_HIGH
    initialized := false
    hasLock := false }

/-- The 32-bit complement `~x` of a `uint32_t`, as xor with the all-ones
word. -/
def complement32 (x : Nat) : Nat := (UINT32_MOD - 1) ^^^ x

/-- `outputData = (triggerMode == ACTIVE_LOW) ? ~currentState : currentState`
— the polarity translation every render in `LatchController.cpp` performs
before calling `driver->updateHardware`. -/
def applyPolarity (mode : LatchTriggerMode) (state : Nat) : Nat :=
  if mode = .ACTIVE_LOW then complement32 state else state

/-- `1UL << channel` as a `uint32_t` value. -/
def bit32 (channel : Nat) : Nat := (1 <<< channel) % UINT32_MOD

/-- `LatchController::begin(mode)` (v3, `LatchController.cpp` lines
224-261).  `mutexOk` models whether `xSemaphoreCreateMutex()` succeeds.
Returns the new state, the `bool` result, and the `updateHardware` calls
performed. -/
def LatchController.begin (s : LatchController) (mode : LatchTriggerMode)
    (mutexOk : Bool) : LatchController × Bool × List DriverCall :=
  if !s.hasDriver then (s, false, [])
  else if !s.hasLock && !mutexOk then (s, false, [])
  else
    let s1 := { s with hasLock := true, triggerMode := mode }
    if !s1.driverInitOk then (s1, false, [])
    else
      let s2 := { s1 with currentState := 0 }
      let out := applyPolarity s2.triggerMode s2.currentState
      let s3 := { s2 with initialized := true }
      (s3, true, [⟨out, s3.channelCount⟩])

/-- `LatchController::begin(mode)` of the v2 implementation
(`LatchController.cpp` v2, lines 25-58).  v2 creates the mutex without a
failure check and — unlike v3 — passes the raw `currentState` to
`driver->updateHardware` without applying the trigger-mode inversion. -/
def LatchController.beginV2 (s : LatchController) (mode : LatchTriggerMode) :
    LatchController × Bool × List DriverCall :=
  if !s.hasDriver then (s, false, [])
  else
    let s1 := { s with hasLock := true, triggerMode := mode }
    if !s1.driverInitOk then (s1, false, [])
    else
      let s2 := { s1 with currentState := 0 }
      let s3 := { s2 with initialized := true }
      (s3, true, [⟨s3.currentState, s3.channelCount⟩])

/-- `LatchController::setLatch(channel, state)` (v3, lines 275-297). -/
def LatchController.setLatch (s : LatchController) (channel : Nat)
    (state : Bool) : LatchController × Bool × List DriverCall :=
  if s.channelCount ≤ channel then (s, false, [])
  else
    let newState :=
      if state then s.currentState ||| bit32 channel
      else s.currentState &&& complement32 (bit32 channel)
    let s1 := { s with currentState := newState }
    let out := applyPolarity s1.triggerMode s1.currentState
    (s1, true, [⟨out, s1.channelCount⟩])

/-- `LatchController::setLatchOn(channel)`. -/
def LatchController.setLatchOn (s : LatchController) (channel : Nat) :
    LatchController × Bool × List DriverCall :=
  s.setLatch channel true

/-- `LatchController::setLatchOff(channel)`. -/
def LatchController.setLatchOff (s : LatchController) (channel : Nat) :
    LatchController × Bool × List DriverCall :=
  s.setLatch channel false

/-- `LatchController::toggleLatch(channel)` (v3, lines 311-326). -/
def LatchController.toggleLatch (s : LatchController) (channel : Nat) :
    LatchController × Bool × List DriverCall :=
  if s.channelCount ≤ channel then (s, false, [])
  else
    let s1 := { s with currentState := s.currentState ^^^ bit32 channel }
    let out := applyPolarity s1.triggerMode s1.currentState
    (s1, true, [⟨out, s1.channelCount⟩])

/-- `uint32_t channelMask = (1UL << channelCount) - 1;`.  For
`channelCount ≤ 31` this is exact `uint32_t` arithmetic; at
`channelCount = 32` the C shift is undefined behavior, and this
definition picks the value-wraparound reading (shift result reduced mod
`2^32`, subtraction wrapping) — the other legal reading, shift-count
masking, is `channelMask32Masked` below, and the two disagree only at
`channelCount = 32`. -/
def channelMask32 (channelCount : Nat) : Nat :=
  ((1 <<< channelCount) % UINT32_MOD + (UINT32_MOD - 1)) % UINT32_MOD

/-- `LatchController::setAllLatches(mask)` (v3, lines 328-339); returns
`void` in C, so only the new state and the driver calls. -/
def LatchController.setAllLatches (s : LatchController) (mask : Nat) :
    LatchController × List DriverCall :=
  let s1 := { s with currentState := mask &&& channelMask32 s.channelCount }
  let out := applyPolarity s1.triggerMode s1.currentState
  (s1, [⟨out, s1.channelCount⟩])

/-- `LatchController::setAllOn()` (v3, lines 341-345). -/
def LatchController.setAllOn (s : LatchController) :
    LatchController × List DriverCall :=
  s.setAllLatches (channelMask32 s.channelCount)

/-- `LatchController::setAllOff()` (v3, lines 347-350). -/
def LatchController.setAllOff (s : LatchController) :
    LatchController × List DriverCall :=
  s.setAllLatches 0

/-- `LatchController::getLatchState(channel)` (v3, lines 352-358). -/
def LatchController.getLatchState (s : LatchController) (channel : Nat) :
    Bool :=
  if s.channelCount ≤ channel then false
  else (s.currentState &&& bit32 channel) != 0

/-- `LatchController::getAllStates()` (v3, lines 360-362). -/
def LatchController.getAllStates (s : LatchController) : Nat :=
  s.currentState

/-- `LatchController::getChannelCount()`. -/
def LatchController.getChannelCount (s : LatchController) : Nat :=
  s.channelCount

/-- `LatchController::setTriggerMode(mode)` (v3, lines 368-383): a no-op
unless the mode actually changes; otherwise re-renders the unchanged
logical state under the new polarity. -/
def LatchController.setTriggerMode (s : LatchController)
    (mode : LatchTriggerMode) : LatchController × List DriverCall :=
  if s.triggerMode ≠ mode then
    let s1 := { s with triggerMode := mode }
    let out := applyPolarity s1.triggerMode s1.currentState
    (s1, [⟨out, s1.channelCount⟩])
  else (s, [])

/-- `LatchController::isInitialized()`. -/
def LatchController.isInitialized (s : LatchController) : Bool :=
  s.initialized

/-- The controller states reachable from construction through the public
API (v3 implementation). -/
inductive Reachable : LatchController → Prop where
  | construct (hasDriver driverInitOk : Bool) (channels : Nat) :
      Reachable (LatchController.construct hasDriver driverInitOk channels)
  | beginStep (s : LatchController) (mode : LatchTriggerMode)
      (mutexOk : Bool) : Reachable s → Reachable (s.begin mode mutexOk).1
  | setLatchStep (s : LatchController) (channel : Nat) (state : Bool) :
      Reachable s → Reachable (s.setLatch channel state).1
  | toggleLatchStep (s : LatchController) (channel : Nat) :
      Reachable s → Reachable (s.toggleLatch channel).1
  | setAllLatchesStep (s : LatchController) (mask : Nat) :
      Reachable s → Reachable (s.setAllLatches mask).1
  | setAllOnStep (s : LatchController) :
      Reachable s → Reachable s.setAllOn.1
  | setAllOffStep (s : LatchController) :
      Reachable s → Reachable s.setAllOff.1
  | setTriggerModeStep (s : LatchController) (mode : LatchTriggerMode) :
      Reachable s → Reachable (s.setTriggerMode mode).1

/-! ### Arithmetic helper lemmas -/

theorem uint32_mod_eq : UINT32_MOD = 2 ^ 32 := rfl

theorem bit32_eq {channel : Nat} (h : channel < 32) :
    bit32 channel = 2 ^ channel := by
  have hlt : (2 : Nat) ^ channel < 2 ^ 32 :=
    Nat.pow_lt_pow_right (by norm_num) h
  rw [bit32, uint32_mod_eq, Nat.shiftLeft_eq, one_mul, Nat.mod_eq_of_lt hlt]

theorem channelMask32_eq {cc : Nat} (h : cc ≤ 32) :
    channelMask32 cc = 2 ^ cc - 1 := by
  have hpos : 0 < (2 : Nat) ^ cc := Nat.two_pow_pos cc
  rcases Nat.lt_or_ge cc 32 with hlt | hge
  · have h2 : (2 : Nat) ^ cc < 2 ^ 32 := Nat.pow_lt_pow_right (by norm_num) hlt
    rw [channelMask32, uint32_mod_eq, Nat.shiftLeft_eq, one_mul,
      Nat.mod_eq_of_lt h2]
    have h4 : (2 : Nat) ^ cc + (2 ^ 32 - 1) = (2 ^ cc - 1) + 2 ^ 32 := by omega
    rw [h4, Nat.add_mod_right, Nat.mod_eq_of_lt (by omega)]
  · have hcc : cc = 32 := le_antisymm h hge
    subst hcc
    rw [channelMask32, uint32_mod_eq, Nat.shiftLeft_eq, one_mul,
      Nat.mod_self, Nat.zero_add]
    exact Nat.mod_eq_of_lt (by omega)

theorem complement32_testBit {x i : Nat} (hi : i < 32) :
    (complement32 x).testBit i = !(x.testBit i) := by
  rw [complement32, uint32_mod_eq, Nat.testBit_xor,
    Nat.testBit_two_pow_sub_one]
  simp [hi]

theorem complement32_lt_of_lt {x : Nat} (hx : x < UINT32_MOD) :
    complement32 x < UINT32_MOD := by
  rw [complement32, uint32_mod_eq] at *
  exact Nat.xor_lt_two_pow (by omega) hx

/-! ### Branch characterizations of the controller operations -/

theorem begin_noDriver (s : LatchController) (mode : LatchTriggerMode)
    (mutexOk : Bool) (h : s.hasDriver = false) :
    s.begin mode mutexOk = (s, false, []) := by
  unfold LatchController.begin
  rw [if_pos (by simp [h])]

theorem begin_noMutex (s : LatchController) (mode : LatchTriggerMode)
    (h1 : s.hasDriver = true) (h2 : s.hasLock = false) :
    s.begin mode false = (s, false, []) := by
  unfold LatchController.begin
  rw [if_neg (by simp [h1]), if_pos (by simp [h2])]

theorem begin_initFail (s : LatchController) (mode : LatchTriggerMode)
    (mutexOk : Bool) (h1 : s.hasDriver = true)
    (h2 : s.hasLock = true ∨ mutexOk = true) (h3 : s.driverInitOk = false) :
    s.begin mode mutexOk =
      ({ s with hasLock := true, triggerMode := mode }, false, []) := by
  unfold LatchController.begin
  rw [if_neg (by simp [h1]), if_neg (by rcases h2 with h | h <;> simp [h]),
    if_pos (by simp [h3])]

theorem begin_success (s : LatchController) (mode : LatchTriggerMode)
    (mutexOk : Bool) (h1 : s.hasDriver = true)
    (h2 : s.hasLock = true ∨ mutexOk = true) (h3 : s.driverInitOk = true) :
    s.begin mode mutexOk =
      ({ s with
          hasLock := true, triggerMode := mode, currentState := 0
          initialized := true }, true,
        [⟨applyPolarity mode 0, s.channelCount⟩]) := by
  unfold LatchController.begin
  rw [if_neg (by simp [h1]), if_neg (by rcases h2 with h | h <;> simp [h]),
    if_neg (by simp [h3])]

theorem setLatch_invalid (s : LatchController) (channel : Nat) (state : Bool)
    (h : s.channelCount ≤ channel) :
    s.setLatch channel state = (s, false, []) := by
  unfold LatchController.setLatch
  rw [if_pos h]

theorem setLatch_valid (s : LatchController) (channel : Nat) (state : Bool)
    (h : channel < s.channelCount) :
    s.setLatch channel state =
      ({ s with currentState :=
            if state then s.currentState ||| bit32 channel
            else s.currentState &&& complement32 (bit32 channel) }, true,
        [⟨applyPolarity s.triggerMode
            (if state then s.currentState ||| bit32 channel
             else s.currentState &&& complement32 (bit32 channel)),
          s.channelCount⟩]) := by
  unfold LatchController.setLatch
  rw [if_neg (by omega)]

theorem toggleLatch_invalid (s : LatchController) (channel : Nat)
    (h : s.channelCount ≤ channel) :
    s.toggleLatch channel = (s, false, []) := by
  unfold LatchController.toggleLatch
  rw [if_pos h]

theorem toggleLatch_valid (s : LatchController) (channel : Nat)
    (h : channel < s.channelCount) :
    s.toggleLatch channel =
      ({ s with currentState := s.currentState ^^^ bit32 channel }, true,
        [⟨applyPolarity s.triggerMode (s.currentState ^^^ bit32 channel),
          s.channelCount⟩]) := by
  unfold LatchController.toggleLatch
  rw [if_neg (by omega)]

theorem setAllLatches_eq (s : LatchController) (mask : Nat) :
    s.setAllLatches mask =
      ({ s with currentState := mask &&& channelMask32 s.channelCount },
        [⟨applyPolarity s.triggerMode (mask &&& channelMask32 s.channelCount),
          s.channelCount⟩]) := rfl

theorem setTriggerMode_ne (s : LatchController) (mode : LatchTriggerMode)
    (h : s.triggerMode ≠ mode) :
    s.setTriggerMode mode =
      ({ s with triggerMode := mode },
        [⟨applyPolarity mode s.currentState, s.channelCount⟩]) := by
  unfold LatchController.setTriggerMode
  rw [if_pos h]

theorem setTriggerMode_eq_self (s : LatchController) (mode : LatchTriggerMode)
    (h : s.triggerMode = mode) :
    s.setTriggerMode mode = (s, []) := by
  unfold LatchController.setTriggerMode
  rw [if_neg (by simp [h])]

/-! ### The ChannelState invariant (bits at and above `channelCount` are
zero, the state fits in 32 bits, the channel count is at most 32) -/

def GoodState (s : LatchController) : Prop :=
  s.channelCount ≤ 32 ∧ s.currentState < UINT32_MOD ∧
  ∀ i, s.channelCount ≤ i → s.currentState.testBit i = false

theorem goodState_construct (hasDriver driverInitOk : Bool) (channels : Nat) :
    GoodState (LatchController.construct hasDriver driverInitOk channels) :=
  ⟨Nat.min_le_right _ _, by simp [LatchController.construct, UINT32_MOD],
    fun i _ => by simp [LatchController.construct]⟩

theorem goodState_begin (s : LatchController) (mode : LatchTriggerMode)
    (mutexOk : Bool) (h : GoodState s) : GoodState (s.begin mode mutexOk).1 := by
  obtain ⟨h1, h2, h3⟩ := h
  rcases hd : s.hasDriver with _ | _
  · rw [begin_noDriver s mode mutexOk hd]; exact ⟨h1, h2, h3⟩
  rcases hio : s.driverInitOk with _ | _
  · rcases hl : s.hasLock with _ | _
    · rcases hm : mutexOk with _ | _
      · rw [begin_noMutex s mode hd hl]; exact ⟨h1, h2, h3⟩
      · rw [begin_initFail s mode true hd (Or.inr rfl) hio]
        exact ⟨h1, h2, h3⟩
    · rw [begin_initFail s mode mutexOk hd (Or.inl hl) hio]
      exact ⟨h1, h2, h3⟩
  · rcases hl : s.hasLock with _ | _
    · rcases hm : mutexOk with _ | _
      · rw [begin_noMutex s mode hd hl]; exact ⟨h1, h2, h3⟩
      · rw [begin_success s mode true hd (Or.inr rfl) hio]
        exact ⟨h1, by norm_num [uint32_mod_eq], fun i _ => by simp⟩
    · rw [begin_success s mode mutexOk hd (Or.inl hl) hio]
      exact ⟨h1, by rw [uint32_mod_eq]; positivity, fun i _ => by simp⟩

theorem goodState_setLatch (s : LatchController) (channel : Nat) (state : Bool)
    (h : GoodState s) : GoodState (s.setLatch channel state).1 := by
  obtain ⟨h1, h2, h3⟩ := h
  rcases Nat.lt_or_ge channel s.channelCount with hch | hch
  · rw [setLatch_valid s channel state hch]
    have hch' : channel < 32 := by omega
    refine ⟨h1, ?_, ?_⟩
    · show (if state then _ else _) < UINT32_MOD
      cases state with
      | true =>
        rw [if_pos rfl, uint32_mod_eq]
        exact Nat.or_lt_two_pow h2
          (by rw [bit32_eq hch']; exact Nat.pow_lt_pow_right (by norm_num) hch')
      | false =>
        rw [if_neg (by simp)]
        exact Nat.lt_of_le_of_lt Nat.and_le_left h2
    · intro i hi
      simp only at hi
      show Nat.testBit (if state then _ else _) i = false
      cases state with
      | true =>
        have hne : channel ≠ i := by omega
        rw [if_pos rfl]
        simp [Nat.testBit_or, h3 i hi, bit32_eq hch',
          Nat.testBit_two_pow_of_ne hne]
      | false =>
        rw [if_neg (by simp)]
        simp [Nat.testBit_and, h3 i hi]
  · rw [setLatch_invalid s channel state hch]; exact ⟨h1, h2, h3⟩

theorem goodState_toggleLatch (s : LatchController) (channel : Nat)
    (h : GoodState s) : GoodState (s.toggleLatch channel).1 := by
  obtain ⟨h1, h2, h3⟩ := h
  rcases Nat.lt_or_ge channel s.channelCount with hch | hch
  · rw [toggleLatch_valid s channel hch]
    have hch' : channel < 32 := by omega
    refine ⟨h1, ?_, ?_⟩
    · show s.currentState ^^^ bit32 channel < UINT32_MOD
      rw [uint32_mod_eq]
      exact Nat.xor_lt_two_pow h2
        (by rw [bit32_eq hch']; exact Nat.pow_lt_pow_right (by norm_num) hch')
    · intro i hi
      simp only at hi
      have hne : channel ≠ i := by omega
      show (s.currentState ^^^ bit32 channel).testBit i = false
      simp [Nat.testBit_xor, h3 i hi, bit32_eq hch',
        Nat.testBit_two_pow_of_ne hne]
  · rw [toggleLatch_invalid s channel hch]; exact ⟨h1, h2, h3⟩

theorem goodState_setAllLatches (s : LatchController) (mask : Nat)
    (h : GoodState s) : GoodState (s.setAllLatches mask).1 := by
  obtain ⟨h1, h2, h3⟩ := h
  rw [setAllLatches_eq s mask]
  have hmask : channelMask32 s.channelCount = 2 ^ s.channelCount - 1 :=
    channelMask32_eq h1
  have hle : (2 : Nat) ^ s.channelCount ≤ 2 ^ 32 :=
    Nat.pow_le_pow_right (by norm_num) h1
  refine ⟨h1, ?_, ?_⟩
  · show mask &&& channelMask32 s.channelCount < UINT32_MOD
    rw [hmask, uint32_mod_eq]
    exact Nat.and_lt_two_pow mask (by omega)
  · intro i hi
    simp only at hi
    show (mask &&& channelMask32 s.channelCount).testBit i = false
    rw [hmask]
    simp only [Nat.testBit_and, Nat.testBit_two_pow_sub_one]
    have : ¬ (i < s.channelCount) := by omega
    simp [this]

theorem goodState_setTriggerMode (s : LatchController) (mode : LatchTriggerMode)
    (h : GoodState s) : GoodState (s.setTriggerMode mode).1 := by
  obtain ⟨h1, h2, h3⟩ := h
  by_cases hm : s.triggerMode = mode
  · rw [setTriggerMode_eq_self s mode hm]; exact ⟨h1, h2, h3⟩
  · rw [setTriggerMode_ne s mode hm]; exact ⟨h1, h2, h3⟩

theorem goodState_reachable {s : LatchController} (h : Reachable s) :
    GoodState s := by
  induction h with
  | construct hasDriver driverInitOk channels =>
      exact goodState_construct hasDriver driverInitOk channels
  | beginStep s mode mutexOk _ ih => exact goodState_begin s mode mutexOk ih
  | setLatchStep s channel state _ ih => exact goodState_setLatch s channel state ih
  | toggleLatchStep s channel _ ih => exact goodState_toggleLatch s channel ih
  | setAllLatchesStep s mask _ ih => exact goodState_setAllLatches s mask ih
  | setAllOnStep s _ ih => exact goodState_setAllLatches s _ ih
  | setAllOffStep s _ ih => exact goodState_setAllLatches s 0 ih
  | setTriggerModeStep s mode _ ih => exact goodState_setTriggerMode s mode ih

/-- C4: Starting from construction and after every public operation of the
controller, all bits of `currentState` at positions at or above the
configured `channelCount` are zero: every reachable controller state has a
logical bitmask confined to the configured channel range. -/
theorem high_bits_always_zero (s : LatchController) (h : Reachable s) :
    ∀ i, s.channelCount ≤ i → s.currentState.testBit i = false :=
  (goodState_reachable h).2.2

/-- Witness for C4: a concretely reachable 8-channel controller state has
bit 8 of its logical state clear. -/
theorem high_bits_always_zero_witness :
    Reachable (LatchController.construct true true 8) ∧
    (LatchController.construct true true 8).currentState.testBit 8 = false :=
  ⟨Reachable.construct true true 8,
    high_bits_always_zero _ (Reachable.construct true true 8) 8 (by decide)⟩

/-! ### Polarity translation (C1) -/

/-- The driver-facing word `dataWord` renders the logical mask `logical`
correctly for `mode`: identical under ACTIVE_HIGH, bitwise complemented on
the low `cc` bits under ACTIVE_LOW. -/
def PolarityAgrees (mode : LatchTriggerMode) (cc logical dataWord : Nat) :
    Prop :=
  (mode = .ACTIVE_HIGH → dataWord = logical) ∧
  (mode = .ACTIVE_LOW → ∀ i, i < cc → dataWord.testBit i = !(logical.testBit i))

theorem polarityAgrees_applyPolarity (mode : LatchTriggerMode) {cc : Nat}
    (logical : Nat) (h32 : cc ≤ 32) :
    PolarityAgrees mode cc logical (applyPolarity mode logical) := by
  refine ⟨fun h => ?_, fun h i hi => ?_⟩
  · subst h; simp [applyPolarity]
  · subst h
    simp only [applyPolarity, if_pos rfl]
    exact complement32_testBit (by omega)

theorem setTriggerMode_getAllStates (s : LatchController)
    (mode : LatchTriggerMode) :
    (s.setTriggerMode mode).1.getAllStates = s.getAllStates := by
  by_cases hm : s.triggerMode = mode
  · rw [setTriggerMode_eq_self s mode hm]
  · rw [setTriggerMode_ne s mode hm]; rfl

/-- C1: on every reachable controller state, every driver call performed by
setLatch, toggleLatch, setAllLatches or setTriggerMode carries exactly the
polarity translation of the new logical state: the transmitted word agrees
with the bitwise complement of `getAllStates()` on the low `channelCount`
bits under ACTIVE_LOW, and equals `getAllStates()` exactly under
ACTIVE_HIGH — the stored logical state is never inverted. -/
theorem polarity_correct_mutating_ops (s : LatchController)
    (h : Reachable s) :
    (∀ channel state, ∀ c ∈ (s.setLatch channel state).2.2,
      c.data = applyPolarity (s.setLatch channel state).1.triggerMode
          (s.setLatch channel state).1.getAllStates ∧
      PolarityAgrees (s.setLatch channel state).1.triggerMode
        (s.setLatch channel state).1.channelCount
        (s.setLatch channel state).1.getAllStates c.data) ∧
    (∀ channel, ∀ c ∈ (s.toggleLatch channel).2.2,
      c.data = applyPolarity (s.toggleLatch channel).1.triggerMode
          (s.toggleLatch channel).1.getAllStates ∧
      PolarityAgrees (s.toggleLatch channel).1.triggerMode
        (s.toggleLatch channel).1.channelCount
        (s.toggleLatch channel).1.getAllStates c.data) ∧
    (∀ mask, ∀ c ∈ (s.setAllLatches mask).2,
      c.data = applyPolarity (s.setAllLatches mask).1.triggerMode
          (s.setAllLatches mask).1.getAllStates ∧
      PolarityAgrees (s.setAllLatches mask).1.triggerMode
        (s.setAllLatches mask).1.channelCount
        (s.setAllLatches mask).1.getAllStates c.data) ∧
    (∀ mode, ∀ c ∈ (s.setTriggerMode mode).2,
      c.data = applyPolarity (s.setTriggerMode mode).1.triggerMode
          (s.setTriggerMode mode).1.getAllStates ∧
      PolarityAgrees (s.setTriggerMode mode).1.triggerMode
        (s.setTriggerMode mode).1.channelCount
        (s.setTriggerMode mode).1.getAllStates c.data) := by
  have h32 : s.channelCount ≤ 32 := (goodState_reachable h).1
  refine ⟨?_, ?_, ?_, ?_⟩
  · intro channel state c hc
    rcases Nat.lt_or_ge channel s.channelCount with hch | hch
    · rw [setLatch_valid s channel state hch] at hc ⊢
      simp only [List.mem_singleton] at hc
      subst hc
      exact ⟨rfl, polarityAgrees_applyPolarity _ _ h32⟩
    · rw [setLatch_invalid s channel state hch] at hc
      simp at hc
  · intro channel c hc
    rcases Nat.lt_or_ge channel s.channelCount with hch | hch
    · rw [toggleLatch_valid s channel hch] at hc ⊢
      simp only [List.mem_singleton] at hc
      subst hc
      exact ⟨rfl, polarityAgrees_applyPolarity _ _ h32⟩
    · rw [toggleLatch_invalid s channel hch] at hc
      simp at hc
  · intro mask c hc
    rw [setAllLatches_eq s mask] at hc ⊢
    simp only [List.mem_singleton] at hc
    subst hc
    exact ⟨rfl, polarityAgrees_applyPolarity _ _ h32⟩
  · intro mode c hc
    by_cases hm : s.triggerMode = mode
    · rw [setTriggerMode_eq_self s mode hm] at hc
      simp at hc
    · rw [setTriggerMode_ne s mode hm] at hc ⊢
      simp only [List.mem_singleton] at hc
      subst hc
      exact ⟨rfl, polarityAgrees_applyPolarity _ _ h32⟩

/-- Witness for C1: on the freshly constructed 8-channel controller, the
single driver call of `setLatch 0 true` satisfies the polarity relation. -/
theorem polarity_correct_mutating_ops_witness :
    Reachable (LatchController.construct true true 8) ∧
    ∀ c ∈ ((LatchController.construct true true 8).setLatch 0 true).2.2,
      c.data = applyPolarity
          ((LatchController.construct true true 8).setLatch 0 true).1.triggerMode
          ((LatchController.construct true true 8).setLatch 0 true).1.getAllStates ∧
      PolarityAgrees
        ((LatchController.construct true true 8).setLatch 0 true).1.triggerMode
        ((LatchController.construct true true 8).setLatch 0 true).1.channelCount
        ((LatchController.construct true true 8).setLatch 0 true).1.getAllStates
        c.data :=
  ⟨Reachable.construct true true 8,
    (polarity_correct_mutating_ops _ (Reachable.construct true true 8)).1 0 true⟩

/-- C5: single-channel operations on an out-of-range channel fail without
touching the state or the driver, and `getLatchState` reports `false`. -/
theorem invalid_channel_rejected (s : LatchController) (channel : Nat)
    (h : s.channelCount ≤ channel) :
    (∀ state, s.setLatch channel state = (s, false, [])) ∧
    s.toggleLatch channel = (s, false, []) ∧
    s.getLatchState channel = false :=
  ⟨fun state => setLatch_invalid s channel state h,
    toggleLatch_invalid s channel h,
    by unfold LatchController.getLatchState; rw [if_pos h]⟩

/-- Witness for C5: channel 8 on an 8-channel controller. -/
theorem invalid_channel_rejected_witness :
    (LatchController.construct true true 8).channelCount ≤ 8 ∧
    (LatchController.construct true true 8).setLatch 8 true =
      (LatchController.construct true true 8, false, []) ∧
    (LatchController.construct true true 8).toggleLatch 8 =
      (LatchController.construct true true 8, false, []) ∧
    (LatchController.construct true true 8).getLatchState 8 = false :=
  ⟨by decide, (invalid_channel_rejected _ 8 (by decide)).1 true,
    (invalid_channel_rejected _ 8 (by decide)).2.1,
    (invalid_channel_rejected _ 8 (by decide)).2.2⟩

/-- C6: `setTriggerMode` never alters the logical state; it is a no-op
(state and driver untouched) when the requested mode equals the current
one, and a LOW/HIGH round trip leaves `getAllStates()` unchanged. -/
theorem triggerMode_roundtrip_preserves_state (s : LatchController)
    (mode : LatchTriggerMode) :
    (s.setTriggerMode mode).1.getAllStates = s.getAllStates ∧
    (s.triggerMode = mode → s.setTriggerMode mode = (s, [])) ∧
    ((s.setTriggerMode .ACTIVE_LOW).1.setTriggerMode
        .ACTIVE_HIGH).1.getAllStates = s.getAllStates := by
  refine ⟨setTriggerMode_getAllStates s mode, setTriggerMode_eq_self s mode, ?_⟩
  rw [setTriggerMode_getAllStates, setTriggerMode_getAllStates]

/-- Witness for C6: requesting the already-active ACTIVE_HIGH mode on a
fresh controller is a strict no-op. -/
theorem triggerMode_roundtrip_preserves_state_witness :
    (LatchController.construct true true 8).triggerMode = .ACTIVE_HIGH ∧
    (LatchController.construct true true 8).setTriggerMode .ACTIVE_HIGH =
      (LatchController.construct true true 8, []) :=
  ⟨by decide,
    (triggerMode_roundtrip_preserves_state _ .ACTIVE_HIGH).2.1 (by decide)⟩

/-- The other legal resolution of the C shift in
`(1UL << channelCount) - 1`: shift-count masking (the hardware takes the
shift amount mod 32, as x86 and several targets do), followed by the same
wrapping subtraction.  At `channelCount = 32` this gives
`(1 << 0) - 1 = 0`; for `channelCount ≤ 31` it agrees with
`channelMask32`. -/
def channelMask32Masked (channelCount : Nat) : Nat :=
  ((1 <<< (channelCount % 32)) % UINT32_MOD + (UINT32_MOD - 1)) % UINT32_MOD

/-- `LatchController::setAllLatches(mask)` under the shift-count-masking
resolution of the undefined shift (same source lines as `setAllLatches`,
differing only in how the undefined `1UL << 32` is resolved). -/
def LatchController.setAllLatchesMasked (s : LatchController) (mask : Nat) :
    LatchController × List DriverCall :=
  let s1 :=
    { s with currentState := mask &&& channelMask32Masked s.channelCount }
  let out := applyPolarity s1.triggerMode s1.currentState
  (s1, [⟨out, s1.channelCount⟩])

/-- Counterexample for C7: the claim's "for channelCount = 32 the whole
mask is kept" clause is not guaranteed by the program.  At
`channelCount = 32` the C computation `(1UL << 32) - 1` of the channel
mask is undefined behavior: the value-wraparound reading gives the
all-ones mask, but the equally legal shift-count-masking reading gives
mask `0`, under which `setAllLatches(5)` on a 32-channel controller
stores `0`, not `5`. -/
theorem setAllLatches_cc32_ub_cex :
    (LatchController.construct true true 32).channelCount = 32 ∧
    channelMask32 32 = 4294967295 ∧
    channelMask32Masked 32 = 0 ∧
    ((LatchController.construct true true
        32).setAllLatchesMasked 5).1.getAllStates = 0 ∧
    (5 : Nat) ≠ 0 := by decide

/-- C7 as amended: for every `channelCount ≤ 31` — where
`1UL << channelCount` is well defined — `setAllLatches(mask)` keeps the
bits of the mask below `channelCount` verbatim and silently clears all
higher bits (never an error); below 32 channels the two legal resolutions
of the shift coincide, so this result does not depend on the undefined
`channelCount = 32` case, where the program guarantees nothing. -/
theorem setAllLatches_masks_input_below32 (s : LatchController) (mask : Nat)
    (h31 : s.channelCount ≤ 31) :
    (∀ i, i < s.channelCount →
      (s.setAllLatches mask).1.getAllStates.testBit i = mask.testBit i) ∧
    (∀ i, s.channelCount ≤ i →
      (s.setAllLatches mask).1.getAllStates.testBit i = false) ∧
    channelMask32Masked s.channelCount = channelMask32 s.channelCount ∧
    (s.setAllLatchesMasked mask).1.getAllStates =
      (s.setAllLatches mask).1.getAllStates := by
  have hresol : channelMask32Masked s.channelCount =
      channelMask32 s.channelCount := by
    rw [channelMask32Masked, channelMask32,
      Nat.mod_eq_of_lt (show s.channelCount < 32 by omega)]
  have hres : (s.setAllLatches mask).1.getAllStates =
      mask &&& (2 ^ s.channelCount - 1) := by
    rw [setAllLatches_eq s mask]
    show mask &&& channelMask32 s.channelCount = _
    rw [channelMask32_eq (by omega)]
  refine ⟨fun i hi => ?_, fun i hi => ?_, hresol, ?_⟩
  · rw [hres]
    simp [Nat.testBit_and, Nat.testBit_two_pow_sub_one, hi]
  · rw [hres]
    have : ¬ (i < s.channelCount) := by omega
    simp [Nat.testBit_and, Nat.testBit_two_pow_sub_one, this]
  · rw [setAllLatches_eq s mask]
    show mask &&& channelMask32Masked s.channelCount = _
    rw [hresol]
    rfl

/-- Witness for C7 (amended): an 8-channel controller given the 9-bit
mask `511` keeps bit 0 and drops bit 8. -/
theorem setAllLatches_masks_input_below32_witness :
    (LatchController.construct true true 8).channelCount ≤ 31 ∧
    ((LatchController.construct true true 8).setAllLatches
        511).1.getAllStates.testBit 0 = (511 : Nat).testBit 0 ∧
    ((LatchController.construct true true 8).setAllLatches
        511).1.getAllStates.testBit 8 = false :=
  ⟨by decide,
    (setAllLatches_masks_input_below32 _ 511 (by decide)).1 0 (by decide),
    (setAllLatches_masks_input_below32 _ 511 (by decide)).2.1 8 (by decide)⟩

/-! ### Initialization gating (C2) -/

/-- Counterexample for C2: a controller whose driver `init()` fails stays
uninitialized after `begin`, yet the subsequent `setLatch(0, true)` does
NOT fail fast — it returns `true`, mutates the logical state to `1`, and
performs a driver call: `setLatch` only validates the channel index and
never consults the initialized flag. -/
theorem setLatch_ignores_initialized_cex :
    (((LatchController.construct true false 8).begin .ACTIVE_HIGH
        true).2.1 = false) ∧
    (((LatchController.construct true false 8).begin .ACTIVE_HIGH
        true).1.isInitialized = false) ∧
    ((((LatchController.construct true false 8).begin .ACTIVE_HIGH
        true).1.setLatch 0 true).2.1 = true) ∧
    ((((LatchController.construct true false 8).begin .ACTIVE_HIGH
        true).1.setLatch 0 true).1.getAllStates = 1) ∧
    ((((LatchController.construct true false 8).begin .ACTIVE_HIGH
        true).1.setLatch 0 true).2.2 ≠ []) := by decide

/-- C2 as amended: a failed `begin` does leave the controller
uninitialized, but no mutating call is gated on the initialized flag: on
any uninitialized controller, `setLatch` (hence `setLatchOn`/`setLatchOff`)
with a valid channel succeeds, performs a driver call, and leaves the flag
untouched, and likewise `toggleLatch`; `setAllLatches` always mutates and
calls the driver. -/
theorem begin_fail_uninitialized_not_gated (hasDriver driverInitOk : Bool)
    (channels : Nat) (mode : LatchTriggerMode) (mutexOk : Bool)
    (hfail : ((LatchController.construct hasDriver driverInitOk
        channels).begin mode mutexOk).2.1 = false) :
    (((LatchController.construct hasDriver driverInitOk channels).begin
        mode mutexOk).1.isInitialized = false) ∧
    (∀ s : LatchController, s.isInitialized = false →
      ∀ channel, channel < s.channelCount →
        (∀ state, (s.setLatch channel state).2.1 = true ∧
          (s.setLatch channel state).2.2 ≠ [] ∧
          (s.setLatch channel state).1.isInitialized = false) ∧
        ((s.toggleLatch channel).2.1 = true ∧
          (s.toggleLatch channel).2.2 ≠ [] ∧
          (s.toggleLatch channel).1.isInitialized = false)) ∧
    (∀ s : LatchController, s.isInitialized = false → ∀ mask,
      (s.setAllLatches mask).2 ≠ [] ∧
      (s.setAllLatches mask).1.isInitialized = false) := by
  refine ⟨?_, ?_, ?_⟩
  · set s0 := LatchController.construct hasDriver driverInitOk channels with hs0
    rcases hd : s0.hasDriver with _ | _
    · rw [begin_noDriver s0 mode mutexOk hd]
      simp [LatchController.isInitialized, hs0, LatchController.construct]
    rcases hio : s0.driverInitOk with _ | _
    · rcases hl : s0.hasLock with _ | _
      · rcases hm : mutexOk with _ | _
        · rw [begin_noMutex s0 mode hd hl]
          simp [LatchController.isInitialized, hs0, LatchController.construct]
        · rw [begin_initFail s0 mode true hd (Or.inr rfl) hio]
          simp [LatchController.isInitialized, hs0, LatchController.construct]
      · rw [begin_initFail s0 mode mutexOk hd (Or.inl hl) hio]
        simp [LatchController.isInitialized, hs0, LatchController.construct]
    · rcases hl : s0.hasLock with _ | _
      · rcases hm : mutexOk with _ | _
        · rw [begin_noMutex s0 mode hd hl]
          simp [LatchController.isInitialized, hs0, LatchController.construct]
        · rw [hm] at hfail
          rw [begin_success s0 mode true hd (Or.inr rfl) hio] at hfail
          simp at hfail
      · rw [begin_success s0 mode mutexOk hd (Or.inl hl) hio] at hfail
        simp at hfail
  · intro s hs channel hch
    constructor
    · intro state
      rw [setLatch_valid s channel state hch]
      exact ⟨rfl, by simp, hs⟩
    · rw [toggleLatch_valid s channel hch]
      exact ⟨rfl, by simp, hs⟩
  · intro s hs mask
    rw [setAllLatches_eq s mask]
    exact ⟨by simp, hs⟩

/-- Witness for C2 (amended): the concrete failing-`begin` controller from
the counterexample, with channel 0. -/
theorem begin_fail_uninitialized_not_gated_witness :
    (((LatchController.construct true false 8).begin .ACTIVE_LOW
        true).2.1 = false) ∧
    (((LatchController.construct true false 8).begin .ACTIVE_LOW
        true).1.isInitialized = false) :=
  ⟨by decide,
    (begin_fail_uninitialized_not_gated true false 8 .ACTIVE_LOW true
      (by decide)).1⟩

/-! ### ESP32_RelayController (for C3) -/

/-- `RelayTriggerMode` from `ESP32_RelayController.h`. -/
inductive RelayTriggerMode where
  | HIGH_TRIGGER
  | LOW_TRIGGER
deriving DecidableEq, Repr

/-- The state-relevant fields of class `ESP32_RelayController` (pin numbers
are irrelevant to the rendered data and omitted). -/
structure ESP32_RelayController where
  currentState : Nat
  triggerMode : RelayTriggerMode
  initialized : Bool
  hasLock : Bool
deriving DecidableEq, Repr

/-- The default `ESP32_RelayController()` constructor (lines 12-21). -/
def ESP32_RelayController.construct : ESP32_RelayController :=
  { currentState := 0
    triggerMode := .HIGH_TRIGGER
    initialized := false
    hasLock := false }

/-- `ESP32_RelayController::updateHardware()` (lines 121-139): returns the
list of bytes actually shifted out to the 74HC595.  The very first
statement is `if (!initialized) return;`, so nothing is shifted while the
controller is not initialized; otherwise one byte, inverted under
LOW_TRIGGER, is transmitted. -/
def ESP32_RelayController.updateHardware (s : ESP32_RelayController) :
    List Nat :=
  if !s.initialized then []
  else [if s.triggerMode = .LOW_TRIGGER
        then (UINT8_MOD - 1) ^^^ s.currentState
        else s.currentState]

/-- `ESP32_RelayController::begin(...)` (lines 36-82): configures pins,
sets the trigger mode, creates the mutex, zeroes `currentState`, calls
`updateHardware()`, and only afterwards sets `initialized = true`; always
returns `true`. -/
def ESP32_RelayController.begin (s : ESP32_RelayController)
    (mode : RelayTriggerMode) : ESP32_RelayController × Bool × List Nat :=
  let s1 := { s with triggerMode := mode, hasLock := true, currentState := 0 }
  let calls := s1.updateHardware
  let s2 := { s1 with initialized := true }
  (s2, true, calls)

/-- C3 (code bug, evaluated at the failing inputs): a successful
`begin(ACTIVE_LOW)` of the v2 `LatchController` passes the raw zero state
to `updateHardware` — bit 0 of the transmitted word is `false`, not the
all-ones pattern the polarity policy requires (the v3 rewrite, whose
changelog says "fixed ACTIVE_LOW logic", sends `0xFFFFFFFF` instead); and a
successful `ESP32_RelayController::begin(LOW_TRIGGER)` performs no hardware
render at all, because its `updateHardware` early-returns while
`initialized` is still `false`. -/
theorem begin_render_missing :
    (((LatchController.construct true true 8).beginV2 .ACTIVE_LOW).2.1
        = true) ∧
    (((LatchController.construct true true 8).beginV2 .ACTIVE_LOW).2.2
        = [⟨0, 8⟩]) ∧
    ((0 : Nat).testBit 0 = false) ∧
    (((LatchController.construct true true 8).begin .ACTIVE_LOW true).2.2
        = [⟨4294967295, 8⟩]) ∧
    ((ESP32_RelayController.construct.begin .LOW_TRIGGER).2.1 = true) ∧
    ((ESP32_RelayController.construct.begin .LOW_TRIGGER).2.2 = []) ∧
    ((ESP32_RelayController.construct.begin
        .LOW_TRIGGER).1.initialized = true) := by decide

/-! ### ShiftRegisterDriver protocol (C8, C10) -/

/-- One `digitalWrite` performed by the shift-register driver, identified
by the line it drives and the level written. -/
inductive PinEvent where
  | clock (level : Bool)
  | data (level : Bool)
  | latch (level : Bool)
  | oe (level : Bool)
deriving DecidableEq, Repr

/-- The body of the `for (int8_t i = bits - 1; i >= 0; i--)` loop of
`ShiftRegisterDriver::shiftOut` (lines 69-77): clock low, data line to
`(data & (1UL << i)) ? HIGH : LOW`, clock high; the argument counts the
remaining iterations, so the first block emitted uses bit `bits - 1`. -/
def ShiftRegisterDriver.shiftOutLoop (dataWord : Nat) : Nat → List PinEvent
  | 0 => []
  | i + 1 =>
    [PinEvent.clock false, PinEvent.data ((dataWord &&& bit32 i) != 0),
      PinEvent.clock true] ++ ShiftRegisterDriver.shiftOutLoop dataWord i

/-- `ShiftRegisterDriver::shiftOut(data, bits)`: the countdown loop
followed by the final `digitalWrite(clockPin, LOW)`. -/
def ShiftRegisterDriver.shiftOut (dataWord bits : Nat) : List PinEvent :=
  ShiftRegisterDriver.shiftOutLoop dataWord bits ++ [PinEvent.clock false]

/-- `ShiftRegisterDriver::updateHardware(data, channelCount)` (lines
79-92): latch low (when a latch pin is configured), shift, latch high. -/
def ShiftRegisterDriver.updateHardware (hasLatchPin : Bool)
    (dataWord channelCount : Nat) : List PinEvent :=
  (if hasLatchPin then [PinEvent.latch false] else []) ++
    ShiftRegisterDriver.shiftOut dataWord channelCount ++
    (if hasLatchPin then [PinEvent.latch true] else [])

/-- The `for (int i = 0; i < 8; i++)` clearing loop inside
`ShiftRegisterDriver::init` (lines 49-53). -/
def ShiftRegisterDriver.initClearLoop : Nat → List PinEvent
  | 0 => []
  | n + 1 => ShiftRegisterDriver.initClearLoop n ++
      [PinEvent.data true, PinEvent.clock true, PinEvent.clock false]

/-- `ShiftRegisterDriver::init()` (lines 26-67): configures the lines,
drives them to idle levels, clears the register with all-HIGH bits, pulses
the latch, and unconditionally returns `true`. -/
def ShiftRegisterDriver.init (hasLatchPin hasOePin : Bool) :
    List PinEvent × Bool :=
  ((if hasLatchPin then [PinEvent.latch false] else []) ++
    (if hasOePin then [PinEvent.oe false] else []) ++
    [PinEvent.data false, PinEvent.clock false] ++
    ShiftRegisterDriver.initClearLoop 8 ++
    (if hasLatchPin then [PinEvent.latch true, PinEvent.latch false]
     else []),
   true)

/-- The level written by a data-line event, if any. -/
def PinEvent.dataLevel : PinEvent → Option Bool
  | PinEvent.data b => some b
  | _ => none

/-- The successive levels written to the data line in a trace. -/
def dataLevels (trace : List PinEvent) : List Bool :=
  trace.filterMap PinEvent.dataLevel

/-- Whether an event writes the latch/storage line. -/
def PinEvent.isLatchWrite : PinEvent → Bool
  | PinEvent.latch _ => true
  | _ => false

theorem and_bit32_bne_zero {x i : Nat} (hi : i < 32) :
    ((x &&& bit32 i) != 0) = x.testBit i := by
  rw [bit32_eq hi, Nat.and_two_pow]
  have hne : (2 : Nat) ^ i ≠ 0 := Nat.pos_iff_ne_zero.mp (Nat.two_pow_pos i)
  cases h : x.testBit i <;> simp [hne]

theorem shiftOutLoop_eq (dataWord : Nat) : ∀ bits, bits ≤ 32 →
    ShiftRegisterDriver.shiftOutLoop dataWord bits =
      (List.range bits).reverse.flatMap
        (fun i => [PinEvent.clock false, PinEvent.data (dataWord.testBit i),
          PinEvent.clock true]) := by
  intro bits
  induction bits with
  | zero => intro _; rfl
  | succ n ih =>
    intro h
    rw [List.range_succ, List.reverse_append, List.reverse_singleton,
      List.singleton_append, List.flatMap_cons,
      ShiftRegisterDriver.shiftOutLoop, ih (by omega),
      and_bit32_bne_zero (show n < 32 by omega)]

theorem shiftOutLoop_no_latch (dataWord : Nat) : ∀ bits,
    (ShiftRegisterDriver.shiftOutLoop dataWord bits).filter
      PinEvent.isLatchWrite = [] := by
  intro bits
  induction bits with
  | zero => rfl
  | succ n ih =>
    rw [ShiftRegisterDriver.shiftOutLoop]
    simp [List.filter_append, ih, PinEvent.isLatchWrite]

theorem dataLevels_shiftOutLoop (dataWord : Nat) : ∀ bits, bits ≤ 32 →
    dataLevels (ShiftRegisterDriver.shiftOutLoop dataWord bits) =
      (List.range bits).reverse.map dataWord.testBit := by
  intro bits
  induction bits with
  | zero => intro _; rfl
  | succ n ih =>
    intro h
    have ih' := ih (by omega)
    rw [dataLevels] at ih'
    rw [ShiftRegisterDriver.shiftOutLoop, List.range_succ,
      List.reverse_append, List.reverse_singleton, List.singleton_append,
      List.map_cons, dataLevels, List.filterMap_append, ih',
      and_bit32_bne_zero (show n < 32 by omega)]
    rfl

/-- C8: `ShiftRegisterDriver::updateHardware` emits the
(polarity-adjusted) data word MSB-first — the data levels are the bits
`channelCount-1` down to `0` —, each bit framed as clock-low, data-write,
clock-high; the final event of the shift leaves the clock low; the shift
itself never touches the latch line, which is driven low before and high
after the shift exactly when a latch pin is configured. -/
theorem shiftRegister_msb_first_protocol (dataWord channelCount : Nat)
    (h : channelCount ≤ 32) :
    ShiftRegisterDriver.shiftOut dataWord channelCount =
      (List.range channelCount).reverse.flatMap
        (fun i => [PinEvent.clock false, PinEvent.data (dataWord.testBit i),
          PinEvent.clock true]) ++ [PinEvent.clock false] ∧
    dataLevels (ShiftRegisterDriver.shiftOut dataWord channelCount) =
      (List.range channelCount).reverse.map dataWord.testBit ∧
    (ShiftRegisterDriver.shiftOut dataWord channelCount).getLast? =
      some (PinEvent.clock false) ∧
    (ShiftRegisterDriver.shiftOut dataWord channelCount).filter
      PinEvent.isLatchWrite = [] ∧
    ShiftRegisterDriver.updateHardware true dataWord channelCount =
      PinEvent.latch false ::
        (ShiftRegisterDriver.shiftOut dataWord channelCount ++
          [PinEvent.latch true]) ∧
    ShiftRegisterDriver.updateHardware false dataWord channelCount =
      ShiftRegisterDriver.shiftOut dataWord channelCount := by
  refine ⟨?_, ?_, ?_, ?_, ?_, ?_⟩
  · rw [ShiftRegisterDriver.shiftOut, shiftOutLoop_eq dataWord channelCount h]
  · rw [ShiftRegisterDriver.shiftOut, dataLevels, List.filterMap_append,
      ← dataLevels, dataLevels_shiftOutLoop dataWord channelCount h]
    simp [dataLevels, PinEvent.dataLevel]
  · exact List.getLast?_concat _
  · rw [ShiftRegisterDriver.shiftOut, List.filter_append,
      shiftOutLoop_no_latch]
    rfl
  · simp [ShiftRegisterDriver.updateHardware]
  · simp [ShiftRegisterDriver.updateHardware]

/-- Witness for C8: the byte `181 = 0b10110101` over 8 channels is
transmitted with bit 7 first and bit 0 last. -/
theorem shiftRegister_msb_first_protocol_witness :
    (8 : Nat) ≤ 32 ∧
    dataLevels (ShiftRegisterDriver.shiftOut 181 8) =
      (List.range 8).reverse.map (181 : Nat).testBit :=
  ⟨by decide, (shiftRegister_msb_first_protocol 181 8 (by decide)).2.1⟩

/-! ### Lock discipline and toggle parity (C9) -/

/-- One atomic step of a mutating controller method, in source order. -/
inductive GuardAction where
  | takeLock
  | giveLock
  | writeState
  | driverWrite
deriving DecidableEq, Repr

/-- Statement order of `LatchController::setLatch` on a valid channel (v3,
lines 275-297): `takeLock();` state mutation; `driver->updateHardware`;
`giveLock();`. -/
def setLatchActions : List GuardAction :=
  [.takeLock, .writeState, .driverWrite, .giveLock]

/-- Statement order of `LatchController::toggleLatch` on a valid channel
(v3, lines 311-326). -/
def toggleLatchActions : List GuardAction :=
  [.takeLock, .writeState, .driverWrite, .giveLock]

/-- Statement order of `LatchController::setAllLatches` (v3, lines
328-339). -/
def setAllLatchesActions : List GuardAction :=
  [.takeLock, .writeState, .driverWrite, .giveLock]

/-- Statement order of `LatchController::setTriggerMode` when the mode
changes (v3, lines 368-383). -/
def setTriggerModeActions : List GuardAction :=
  [.takeLock, .writeState, .driverWrite, .giveLock]

/-- Statement order of `ESP32_RelayController::setRelayOn` on a valid
channel (lines 143-153): `currentState |= (1 << channel);` happens first,
and only the subsequent `updateHardware()` takes the lock around the
shift. -/
def setRelayOnActions : List GuardAction :=
  [.writeState, .takeLock, .driverWrite, .giveLock]

/-- Statement order of `ESP32_RelayController::toggleRelay` on a valid
channel (lines 167-177): same shape as `setRelayOn`. -/
def toggleRelayActions : List GuardAction :=
  [.writeState, .takeLock, .driverWrite, .giveLock]

/-- Scans a trace tracking whether the guard is held; `true` iff every
state mutation and every hardware write occurs while the guard is held. -/
def guardedFrom : Bool → List GuardAction → Bool
  | _, [] => true
  | _, GuardAction.takeLock :: rest => guardedFrom true rest
  | _, GuardAction.giveLock :: rest => guardedFrom false rest
  | held, GuardAction.writeState :: rest => held && guardedFrom held rest
  | held, GuardAction.driverWrite :: rest => held && guardedFrom held rest

/-- Whether a method's action trace keeps all mutations and hardware
writes inside the guard (starting with the guard not held). -/
def mutationsGuarded (trace : List GuardAction) : Bool :=
  guardedFrom false trace

/-- Counterexample for C9: in `ESP32_RelayController::setRelayOn` and
`toggleRelay` the logical-state mutation precedes the lock acquisition
(the lock is only taken inside `updateHardware`), so it is not the case
that every mutation of the logical state happens while holding the
controller-wide guard. -/
theorem relay_mutation_outside_guard :
    mutationsGuarded setRelayOnActions = false ∧
    mutationsGuarded toggleRelayActions = false := by decide

theorem getLatchState_eq_testBit (s : LatchController) (channel : Nat)
    (h32 : s.channelCount ≤ 32) (hch : channel < s.channelCount) :
    s.getLatchState channel = s.currentState.testBit channel := by
  unfold LatchController.getLatchState
  rw [if_neg (by omega)]
  exact and_bit32_bne_zero (by omega)

theorem toggleLatch_flips (s : LatchController) (channel : Nat)
    (h32 : s.channelCount ≤ 32) (hch : channel < s.channelCount) :
    (s.toggleLatch channel).1.getLatchState channel =
      !(s.getLatchState channel) := by
  rw [toggleLatch_valid s channel hch]
  show LatchController.getLatchState
      { s with currentState := s.currentState ^^^ bit32 channel } channel = _
  rw [getLatchState_eq_testBit
      { s with currentState := s.currentState ^^^ bit32 channel }
      channel h32 hch,
    getLatchState_eq_testBit s channel h32 hch]
  show (s.currentState ^^^ bit32 channel).testBit channel = _
  rw [bit32_eq (show channel < 32 by omega), Nat.testBit_xor,
    Nat.testBit_two_pow_self]
  simp

/-- `n` successive `toggleLatch(channel)` calls. -/
def LatchController.toggleN (s : LatchController) (channel : Nat) :
    Nat → LatchController
  | 0 => s
  | n + 1 => ((s.toggleN channel n).toggleLatch channel).1

theorem toggleLatch_channelCount (s : LatchController) (channel : Nat) :
    (s.toggleLatch channel).1.channelCount = s.channelCount := by
  rcases Nat.lt_or_ge channel s.channelCount with h | h
  · rw [toggleLatch_valid s channel h]
  · rw [toggleLatch_invalid s channel h]

theorem toggleN_channelCount (s : LatchController) (channel : Nat) : ∀ n,
    (s.toggleN channel n).channelCount = s.channelCount
  | 0 => rfl
  | n + 1 => by
    rw [LatchController.toggleN, toggleLatch_channelCount,
      toggleN_channelCount s channel n]

theorem toggleN_parity (s : LatchController) (channel : Nat)
    (h32 : s.channelCount ≤ 32) (hch : channel < s.channelCount) : ∀ n,
    (s.toggleN channel n).getLatchState channel =
      xor (s.getLatchState channel) (decide (n % 2 = 1)) := by
  intro n
  induction n with
  | zero => simp [LatchController.toggleN]
  | succ n ih =>
    have hcc : (s.toggleN channel n).channelCount = s.channelCount :=
      toggleN_channelCount s channel n
    rw [LatchController.toggleN,
      toggleLatch_flips (s.toggleN channel n) channel (by omega)
        (by omega), ih]
    rcases Nat.mod_two_eq_zero_or_one n with hn | hn
    · have hn1 : (n + 1) % 2 = 1 := by omega
      simp [hn, hn1]
    · have hn1 : (n + 1) % 2 = 0 := by omega
      simp [hn, hn1]

/-- C9 as amended: in `LatchController` every mutating method takes the
guard before mutating the state and releases it only after the driver
call (so serialized toggles cannot be lost: `n` executions of
`toggleLatch(channel)` leave `getLatchState(channel)` equal to its initial
value XOR `n mod 2`); in `ESP32_RelayController`, however, `setRelayOn` /
`toggleRelay` mutate `currentState` before the lock is taken, so the
guard-discipline part of the claim fails there (see the counterexample). -/
theorem guarded_toggle_parity (s : LatchController) (channel n : Nat)
    (h32 : s.channelCount ≤ 32) (hch : channel < s.channelCount) :
    mutationsGuarded setLatchActions = true ∧
    mutationsGuarded toggleLatchActions = true ∧
    mutationsGuarded setAllLatchesActions = true ∧
    mutationsGuarded setTriggerModeActions = true ∧
    (s.toggleN channel n).getLatchState channel =
      xor (s.getLatchState channel) (decide (n % 2 = 1)) :=
  ⟨by decide, by decide, by decide, by decide,
    toggleN_parity s channel h32 hch n⟩

/-- Witness for C9 (amended): three toggles of channel 0 on a fresh
8-channel controller invert the channel's state. -/
theorem guarded_toggle_parity_witness :
    (LatchController.construct true true 8).channelCount ≤ 32 ∧
    0 < (LatchController.construct true true 8).channelCount ∧
    ((LatchController.construct true true 8).toggleN 0 3).getLatchState 0 =
      xor ((LatchController.construct true true 8).getLatchState 0)
        (decide (3 % 2 = 1)) :=
  ⟨by decide, by decide,
    (guarded_toggle_parity _ 0 3 (by decide) (by decide)).2.2.2.2⟩

/-! ### Shipped drivers' init (C10) -/

/-- One `digitalWrite` performed by the parallel `DirectLatchDriver`. -/
inductive DLPinEvent where
  | enable (level : Bool)
  | dataPin (index : Nat) (level : Bool)
deriving DecidableEq, Repr

/-- The data-pin loop of `DirectLatchDriver::init` (lines 29-32). -/
def DirectLatchDriver.initPins : Nat → List DLPinEvent
  | 0 => []
  | n + 1 => DirectLatchDriver.initPins n ++ [DLPinEvent.dataPin n false]

/-- `DirectLatchDriver::init()` (lines 23-39): enable pin low (latches
hold), every data pin low, and unconditionally returns `true`. -/
def DirectLatchDriver.init (numChannels : Nat) : List DLPinEvent × Bool :=
  (DLPinEvent.enable false :: DirectLatchDriver.initPins numChannels, true)

/-- C10: both shipped drivers' `init()` return `true` for every pin
configuration; consequently, with a shipped driver attached
(`driverInitOk = true`) the driver-init-failure branch of `begin` is
unreachable and `begin` fails exactly when no driver is attached or — in
the v3 implementation — when mutex creation fails. -/
theorem drivers_init_always_succeed (hasLatchPin hasOePin : Bool)
    (numChannels : Nat) (s : LatchController) (mode : LatchTriggerMode)
    (mutexOk : Bool) (hinit : s.driverInitOk = true) :
    (ShiftRegisterDriver.init hasLatchPin hasOePin).2 = true ∧
    (DirectLatchDriver.init numChannels).2 = true ∧
    ((s.begin mode mutexOk).2.1 = false ↔
      (s.hasDriver = false ∨ (s.hasLock = false ∧ mutexOk = false))) := by
  refine ⟨rfl, rfl, ?_⟩
  rcases hd : s.hasDriver with _ | _
  · rw [begin_noDriver s mode mutexOk hd]
    simp
  · rcases hl : s.hasLock with _ | _
    · rcases hm : mutexOk with _ | _
      · rw [begin_noMutex s mode hd hl]
        simp
      · rw [begin_success s mode true hd (Or.inr rfl) hinit]
        simp
    · rw [begin_success s mode mutexOk hd (Or.inl hl) hinit]
      simp
  
/-- Witness for C10: the fresh 8-channel controller with a shipped driver
(`driverInitOk = true`); `begin(ACTIVE_HIGH)` with a working mutex cannot
fail. -/
theorem drivers_init_always_succeed_witness :
    (LatchController.construct true true 8).driverInitOk = true ∧
    (ShiftRegisterDriver.init true true).2 = true ∧
    (((LatchController.construct true true 8).begin .ACTIVE_HIGH
        true).2.1 = false ↔
      ((LatchController.construct true true 8).hasDriver = false ∨
        ((LatchController.construct true true 8).hasLock = false ∧
          true = false))) :=
  ⟨by decide,
    (drivers_init_always_succeed true true 4
      (LatchController.construct true true 8) .ACTIVE_HIGH true
      (by decide)).1,
    (drivers_init_always_succeed true true 4
      (LatchController.construct true true 8) .ACTIVE_HIGH true
      (by decide)).2.2⟩
